import Mathlib

/-!
Verification of the ascii-canvas-ai repository: a shallow embedding of its
schema model (`design_recommender.py`), connection inference and discovery
adapter (`aws_scanner.py`), diagram fallback orchestration (`ascii_artist.py`)
and CLI workflows (`main.py`), with theorems settling the frozen claims.
-/

/-- JSON values as produced by the Python json module: null, booleans,
numbers, strings, arrays and objects (dicts, represented as key/value pair
lists; lookups take the last occurrence of a key, matching dict building). -/
inductive JsonValue where
  | null : JsonValue
  | bool (b : Bool) : JsonValue
  | num (n : Int) : JsonValue
  | str (s : String) : JsonValue
  | arr (items : List JsonValue) : JsonValue
  | obj (fields : List (String × JsonValue)) : JsonValue

/-- Dict lookup on an object field list: the last binding of a key wins,
mirroring how Python dict construction from parsed JSON keeps the last
duplicate key. -/
def dictGet (fields : List (String × JsonValue)) (k : String) : Option JsonValue :=
  fields.foldl (fun acc p => if p.1 == k then some p.2 else acc) none

/-- Field access on a JSON value: `j["k"]` / `j.get("k")` when `j` is an
object; anything else has no fields. -/
def jsonGet (j : JsonValue) (k : String) : Option JsonValue :=
  match j with
  | JsonValue.obj fields => dictGet fields k
  | _ => none

/-- Python `j.get(k, default)`. -/
def jsonGetD (j : JsonValue) (k : String) (d : JsonValue) : JsonValue :=
  (jsonGet j k).getD d

/-- Python `k in j` membership test on a dict. -/
def jsonHasKey (j : JsonValue) (k : String) : Bool :=
  (jsonGet j k).isSome

/-- Python truthiness of a JSON value (`if response and ...`). -/
def jsonTruthy (j : JsonValue) : Bool :=
  match j with
  | JsonValue.null => false
  | JsonValue.bool b => b
  | JsonValue.num n => n != 0
  | JsonValue.str s => s != ""
  | JsonValue.arr items => !items.isEmpty
  | JsonValue.obj fields => !fields.isEmpty

/-- Python `v == "lit"` where `v` came from JSON: true exactly when `v` is
that string (a non-string never equals a string). -/
def jsonEqStr (j : JsonValue) (s : String) : Bool :=
  match j with
  | JsonValue.str t => t == s
  | _ => false

/-- Read a field expected to hold a list, defaulting to the empty list when
the field is absent (Python `j.get(k, [])`); non-list values are not
produced by the discovery tool and are treated as absent. -/
def jsonListGetD (j : JsonValue) (k : String) : List JsonValue :=
  match jsonGet j k with
  | some (JsonValue.arr items) => items
  | _ => []

/-- The whitespace set of Python str.strip. -/
def pyIsSpace (c : Char) : Bool :=
  c == ' ' || c == '\t' || c == '\n' || c == '\r' || c == '\x0b' || c == '\x0c'

/-- Python str.strip: drop leading and trailing whitespace. -/
def pyStrip (s : String) : String :=
  String.mk (((s.toList.dropWhile pyIsSpace).reverse.dropWhile pyIsSpace).reverse)

/-- Whether a character list begins with the given pattern list. -/
def beginsWith : List Char → List Char → Bool
  | _, [] => true
  | [], _ :: _ => false
  | h :: hs, n :: ns => h == n && beginsWith hs ns

/-- Whether a character list has the given pattern list as a contiguous
sublist. -/
def hasSubList (pattern : List Char) : List Char → Bool
  | [] => beginsWith [] pattern
  | h :: t => beginsWith (h :: t) pattern || hasSubList pattern t

/-- Python substring membership `pattern in hay` on strings. -/
def strContainsSub (hay pattern : String) : Bool :=
  hasSubList pattern.toList hay.toList

/-- Component of a system design (pydantic model SystemComponent:
three required string fields). -/
structure SystemComponent where
  name : String
  type : String
  description : String
deriving DecidableEq, Repr

/-- Directed connection between two components (pydantic model Connection:
four required string fields). -/
structure Connection where
  from_component : String
  to_component : String
  connection_type : String
  description : String
deriving DecidableEq, Repr

/-- Complete system design (pydantic model SystemDesign). -/
structure SystemDesign where
  title : String
  description : String
  components : List SystemComponent
  connections : List Connection
  notes : List String
deriving DecidableEq, Repr

/-- Pydantic validation of a string field: accepts exactly a JSON string
(pydantic v2 rejects numbers, booleans and null for `str` fields). -/
def asStr (j : JsonValue) : Option String :=
  match j with
  | JsonValue.str s => some s
  | _ => none

/-- Validate every element of a JSON array with `f`, failing the whole list
when any element fails (pydantic list field validation). -/
def parseEach (f : JsonValue → Option α) : List JsonValue → Option (List α)
  | [] => some []
  | j :: js => do
      let a ← f j
      let as ← parseEach f js
      pure (a :: as)

/-- Validate a SystemComponent from a JSON object: the three required string
fields must be present and be strings; extra fields are ignored. -/
def parseComponent (j : JsonValue) : Option SystemComponent :=
  match j with
  | JsonValue.obj fields => do
      let n ← dictGet fields "name" >>= asStr
      let t ← dictGet fields "type" >>= asStr
      let d ← dictGet fields "description" >>= asStr
      pure { name := n, type := t, description := d }
  | _ => none

/-- Validate a Connection from a JSON object: the four required string
fields must be present and be strings; extra fields are ignored. -/
def parseConnection (j : JsonValue) : Option Connection :=
  match j with
  | JsonValue.obj fields => do
      let f ← dictGet fields "from_component" >>= asStr
      let t ← dictGet fields "to_component" >>= asStr
      let c ← dictGet fields "connection_type" >>= asStr
      let d ← dictGet fields "description" >>= asStr
      pure { from_component := f, to_component := t, connection_type := c, description := d }
  | _ => none

/-- Validate a full SystemDesign from a JSON object (`SystemDesign(**data)`):
every required field must be present with the right shape, element-wise for
the three list fields; no defaults are invented, extra fields are ignored,
and any single failure rejects the whole design. -/
def parseSystemDesign (j : JsonValue) : Option SystemDesign :=
  match j with
  | JsonValue.obj fields => do
      let title ← dictGet fields "title" >>= asStr
      let description ← dictGet fields "description" >>= asStr
      let comps ← match dictGet fields "components" with
        | some (JsonValue.arr items) => parseEach parseComponent items
        | _ => none
      let conns ← match dictGet fields "connections" with
        | some (JsonValue.arr items) => parseEach parseConnection items
        | _ => none
      let ns ← match dictGet fields "notes" with
        | some (JsonValue.arr items) => parseEach asStr items
        | _ => none
      pure { title := title, description := description,
             components := comps, connections := conns, notes := ns }
  | _ => none

/-- Serialization of a SystemComponent (model_dump / model_dump_json). -/
def serializeComponent (c : SystemComponent) : JsonValue :=
  JsonValue.obj [("name", JsonValue.str c.name),
                 ("type", JsonValue.str c.type),
                 ("description", JsonValue.str c.description)]

/-- Serialization of a Connection (model_dump / model_dump_json). -/
def serializeConnection (c : Connection) : JsonValue :=
  JsonValue.obj [("from_component", JsonValue.str c.from_component),
                 ("to_component", JsonValue.str c.to_component),
                 ("connection_type", JsonValue.str c.connection_type),
                 ("description", JsonValue.str c.description)]

/-- Serialization of a SystemDesign (model_dump / model_dump_json). -/
def serializeSystemDesign (d : SystemDesign) : JsonValue :=
  JsonValue.obj [("title", JsonValue.str d.title),
                 ("description", JsonValue.str d.description),
                 ("components", JsonValue.arr (d.components.map serializeComponent)),
                 ("connections", JsonValue.arr (d.connections.map serializeConnection)),
                 ("notes", JsonValue.arr (d.notes.map JsonValue.str))]

/-- Errors surfacing from a design generation or refinement call: the JSON
decode error raised by json.loads on malformed content, or the validation
error raised by the schema model on a shape-violating payload. Both
propagate out of the call to its caller. -/
inductive DesignGenerationError where
  | jsonDecodeError : DesignGenerationError
  | validationError : DesignGenerationError
deriving DecidableEq, Repr

/-- DesignRecommenderAgent.recommend_design, modelled from the point the
remote response content is in hand (the prompt construction and transport
are the remote collaborator): json.loads is the external JSON reader
(`jsonLoads`, returning none on undecodable text), and the decoded value is
validated into a SystemDesign; either failure aborts the call with an
error, otherwise the fully validated design is returned. -/
def recommend_design (jsonLoads : String → Option JsonValue)
    (responseContent : String) : Except DesignGenerationError SystemDesign :=
  match jsonLoads responseContent with
  | none => Except.error DesignGenerationError.jsonDecodeError
  | some j =>
      match parseSystemDesign j with
      | none => Except.error DesignGenerationError.validationError
      | some d => Except.ok d

/-- DesignRecommenderAgent.refine_design: the current design (re-serialized
in full) and the feedback text form the request prompt; the response content
is then decoded and validated exactly as in recommend_design, replacing the
design wholesale or failing. -/
def refine_design (jsonLoads : String → Option JsonValue)
    (_currentDesign : SystemDesign) (_feedback : String)
    (responseContent : String) : Except DesignGenerationError SystemDesign :=
  match jsonLoads responseContent with
  | none => Except.error DesignGenerationError.jsonDecodeError
  | some j =>
      match parseSystemDesign j with
      | none => Except.error DesignGenerationError.validationError
      | some d => Except.ok d

/-- The name-keyed dict built at the top of infer_connections
(`component_map = \x7bcomp.name: comp for comp in components\x7d`): a later
component with the same name overwrites an earlier one. The map is built
and then never consulted by any of the six rules. -/
def component_map (components : List SystemComponent) (n : String) :
    Option SystemComponent :=
  components.foldl (fun acc c => if c.name == n then some c else acc) none

/-- One doubly nested append loop of infer_connections: an edge of the given
type and description from every source component to every target component,
sources outermost, both in list order. -/
def crossEdges (src tgt : List SystemComponent) (ctype cdesc : String) :
    List Connection :=
  src.flatMap fun a =>
    tgt.map fun b =>
      { from_component := a.name, to_component := b.name,
        connection_type := ctype, description := cdesc }

/-- The service-side filter shared by rules 2, 3, 4 and 6
(`service_components`): components typed service, compute or function. -/
def service_components (components : List SystemComponent) : List SystemComponent :=
  components.filter fun c => ["service", "compute", "function"].contains c.type

/-- Rule 1: every load balancer to every service/compute component. -/
def pattern1 (components : List SystemComponent) : List Connection :=
  crossEdges (components.filter fun c => c.type == "load_balancer")
    (components.filter fun c => ["service", "compute"].contains c.type)
    "http" "Load balancer distributes traffic to service"

/-- Rule 2: every service/compute/function component to every database. -/
def pattern2 (components : List SystemComponent) : List Connection :=
  crossEdges (service_components components)
    (components.filter fun c => c.type == "database")
    "sync" "Service reads/writes data to database"

/-- Rule 3: every service/compute/function component to every cache. -/
def pattern3 (components : List SystemComponent) : List Connection :=
  crossEdges (service_components components)
    (components.filter fun c => c.type == "cache")
    "sync" "Service uses cache for performance"

/-- Rule 4: every service/compute/function component to every queue. -/
def pattern4 (components : List SystemComponent) : List Connection :=
  crossEdges (service_components components)
    (components.filter fun c => c.type == "queue")
    "async" "Service publishes messages to queue"

/-- Rule 5: every api component to every component named with substring
Lambda or typed function. -/
def pattern5 (components : List SystemComponent) : List Connection :=
  crossEdges (components.filter fun c => c.type == "api")
    (components.filter fun c => strContainsSub c.name "Lambda" || c.type == "function")
    "http" "API Gateway routes requests to Lambda function"

/-- Rule 6: only the first service/compute/function component to only the
first storage component (the `[:1]` slices capping the cross product). -/
def pattern6 (components : List SystemComponent) : List Connection :=
  crossEdges ((service_components components).take 1)
    ((components.filter fun c => c.type == "storage").take 1)
    "sync" "Service stores/retrieves files from storage"

/-- AwsScannerAgent.infer_connections: the six rules applied in order, each
appending its edges to the accumulating connection list. -/
def infer_connections (components : List SystemComponent) : List Connection :=
  pattern1 components ++ pattern2 components ++ pattern3 components ++
    pattern4 components ++ pattern5 components ++ pattern6 components

/-- Outcome of the subprocess invocation inside run_aws_command: either the
run raised (SubprocessError, including the 30 second TimeoutExpired), or it
completed with an exit code and captured stdout text. -/
inductive CmdOutcome where
  | raised : CmdOutcome
  | completed (returncode : Int) (stdout : String) : CmdOutcome
deriving DecidableEq, Repr

/-- AwsScannerAgent.run_aws_command: returns the parsed JSON of stdout only
when the run completed with exit code 0 and non-empty stdout and the text
decodes; a raised subprocess error, a non-zero exit, empty stdout, or a
JSON decode failure (all caught by the surrounding try) yield none. -/
def run_aws_command (jsonLoads : String → Option JsonValue)
    (outcome : CmdOutcome) : Option JsonValue :=
  match outcome with
  | CmdOutcome.raised => none
  | CmdOutcome.completed returncode stdout =>
      if returncode == 0 && stdout != "" then jsonLoads stdout else none

/-- One record of discovered_resources["rds_instances"]: the projected
fields of a DBInstances entry, each kept as the raw JSON value the dict
`.get` produced. -/
structure RdsRecord where
  id : JsonValue
  name : JsonValue
  engine : JsonValue
  status : JsonValue

/-- The record appended for one DBInstances entry. -/
def mkRdsRecord (db : JsonValue) : RdsRecord :=
  { id := jsonGetD db "DBInstanceIdentifier" (JsonValue.str "Unknown"),
    name := jsonGetD db "DBInstanceIdentifier" (JsonValue.str "Unknown"),
    engine := jsonGetD db "Engine" (JsonValue.str "unknown"),
    status := jsonGetD db "DBInstanceStatus" (JsonValue.str "unknown") }

/-- AwsScannerAgent.discover_rds_instances, from the point the
run_aws_command result is in hand: when the response is truthy and carries
a DBInstances list, one record per entry is appended to the accumulated
rds_instances list; otherwise the list is left untouched. -/
def discover_rds_instances (response : Option JsonValue)
    (rds_instances : List RdsRecord) : List RdsRecord :=
  match response with
  | none => rds_instances
  | some j =>
      if jsonTruthy j && jsonHasKey j "DBInstances" then
        rds_instances ++ (jsonListGetD j "DBInstances").map mkRdsRecord
      else rds_instances

/-- One record of discovered_resources["ec2_instances"]: the projected
fields of one running instance, kept as raw JSON values. -/
structure Ec2Record where
  id : JsonValue
  name : JsonValue
  instanceType : JsonValue
  vpc_id : JsonValue
  security_groups : List JsonValue

/-- The state name of an instance:
`instance.get("State", \x7b\x7d).get("Name", "unknown")`. -/
def instanceStateName (inst : JsonValue) : JsonValue :=
  jsonGetD (jsonGetD inst "State" (JsonValue.obj [])) "Name" (JsonValue.str "unknown")

/-- The display name of an instance: the instance id unless a tag with key
Name exists, in which case that tag's value (defaulting back to the id). -/
def ec2DisplayName (inst : JsonValue) (instanceId : JsonValue) : JsonValue :=
  match (jsonListGetD inst "Tags").find? (fun tag =>
      match jsonGet tag "Key" with
      | some v => jsonEqStr v "Name"
      | none => false) with
  | some tag => jsonGetD tag "Value" instanceId
  | none => instanceId

/-- The record appended for one running instance. -/
def mkEc2Record (inst : JsonValue) : Ec2Record :=
  let instanceId := jsonGetD inst "InstanceId" (JsonValue.str "Unknown")
  { id := instanceId,
    name := ec2DisplayName inst instanceId,
    instanceType := jsonGetD inst "InstanceType" (JsonValue.str "Unknown"),
    vpc_id := jsonGetD inst "VpcId" JsonValue.null,
    security_groups := (jsonListGetD inst "SecurityGroups").map
      (fun sg => jsonGetD sg "GroupId" JsonValue.null) }

/-- The instances walked by discover_ec2_instances: all entries of every
reservation's Instances list, in order, when the response is truthy and
carries a Reservations list; none otherwise. -/
def responseInstances (response : Option JsonValue) : List JsonValue :=
  match response with
  | none => []
  | some j =>
      if jsonTruthy j && jsonHasKey j "Reservations" then
        match jsonGet j "Reservations" with
        | some (JsonValue.arr reservations) =>
            reservations.flatMap fun res => jsonListGetD res "Instances"
        | _ => []
      else []

/-- AwsScannerAgent.discover_ec2_instances, from the point the
run_aws_command result is in hand: walks every reservation's instances and
appends a record to the accumulated ec2_instances list exactly for those
whose state name equals the string running; every other instance is
skipped. -/
def discover_ec2_instances (response : Option JsonValue)
    (ec2_instances : List Ec2Record) : List Ec2Record :=
  ec2_instances ++ (responseInstances response).filterMap fun inst =>
    if jsonEqStr (instanceStateName inst) "running" then some (mkEc2Record inst)
    else none

/-- Lookup in a style instruction dict with the detailed entry as default
(`style_instructions.get(style, style_instructions["detailed"])`). -/
def styleLookupD (table : List (String × String)) (style fallbackText : String) :
    String :=
  match table.find? (fun p => p.1 == style) with
  | some p => p.2
  | none => fallbackText

/-- The style instruction table of AsciiArtistAgent.create_ascii_diagram
(the primary, Anthropic, path). -/
def anthropicStyleTable : List (String × String) :=
  [("detailed", "Create a detailed, spacious diagram with boxes and clear connections. Use box-drawing characters."),
   ("compact", "Create a compact diagram that fits in ~80 characters width. Be space-efficient."),
   ("flowchart", "Create a flowchart-style diagram showing the flow of data/requests through the system.")]

/-- The style instruction embedded in the primary provider prompt for a
given style selector; unknown styles fall back to the detailed entry. -/
def anthropic_style_instructions (style : String) : String :=
  styleLookupD anthropicStyleTable style
    "Create a detailed, spacious diagram with boxes and clear connections. Use box-drawing characters."

/-- The style instruction table built inside
AsciiArtistAgent.create_with_openai_fallback for the secondary, OpenAI,
path. -/
def openaiStyleTable : List (String × String) :=
  [("detailed", "Create a detailed, spacious diagram with boxes and clear connections."),
   ("compact", "Create a compact diagram that fits in ~80 characters width."),
   ("flowchart", "Create a flowchart-style diagram showing data/request flow.")]

/-- The style instruction embedded in the secondary provider prompt for a
given style selector; unknown styles fall back to the detailed entry. -/
def openai_style_instructions (style : String) : String :=
  styleLookupD openaiStyleTable style
    "Create a detailed, spacious diagram with boxes and clear connections."

/-- One provider invocation made while rendering a diagram: which provider,
the style instruction its prompt embeds, and the serialized design it is
asked to draw. -/
structure ProviderCall where
  provider : String
  styleInstruction : String
  designJson : String
deriving DecidableEq, Repr

/-- A diagram provider outcome: the returned text, or the raised error
message. -/
abbrev ProviderOutcome := Except String String

/-- AsciiArtistAgent.create_with_openai_fallback, with each provider's
behaviour given as its outcome: the primary (Anthropic) call is made first
with the primary style instruction; only when it raises is a single
secondary (OpenAI) call made with the secondary table's instruction for the
same style selector, and its outcome is returned as is — its text on
success, its failure otherwise. The call trace is returned alongside the
result. -/
def create_with_openai_fallback (primaryOutcome secondaryOutcome : ProviderOutcome)
    (designJson style : String) : List ProviderCall × ProviderOutcome :=
  match primaryOutcome with
  | Except.ok text =>
      ([{ provider := "anthropic",
          styleInstruction := anthropic_style_instructions style,
          designJson := designJson }], Except.ok text)
  | Except.error _ =>
      ([{ provider := "anthropic",
          styleInstruction := anthropic_style_instructions style,
          designJson := designJson },
        { provider := "openai",
          styleInstruction := openai_style_instructions style,
          designJson := designJson }], secondaryOutcome)

/-- A remote text generation invocation made by the CLI workflow. -/
inductive RemoteCall where
  | designGeneration (description : String) : RemoteCall
  | diagramRender : RemoteCall
deriving DecidableEq, Repr

/-- The remote calls of interactive_mode on the describe path, from the
point the multiline description is in hand: an empty or whitespace-only
description prints an error and returns before any agent call; otherwise
recommend_design is invoked with the description, and only when it
succeeds does the flow continue to the diagram rendering call (refinement
and the rendering fallback, both occurring after the design call, are
elided). -/
def interactive_describe_calls (description : String)
    (designOutcome : Except DesignGenerationError SystemDesign) :
    List RemoteCall :=
  if pyStrip description == "" then []
  else
    match designOutcome with
    | Except.error _ => [RemoteCall.designGeneration description]
    | Except.ok _ => [RemoteCall.designGeneration description, RemoteCall.diagramRender]

/-- The remote calls of batch_mode: a missing input file exits before any
agent is constructed; otherwise the file content is read and
recommend_design is invoked with it — with no emptiness check — and on its
success the diagram rendering call follows. -/
def batch_mode_calls (fileExists : Bool) (fileContent : String)
    (designOutcome : Except DesignGenerationError SystemDesign) :
    List RemoteCall :=
  if !fileExists then []
  else
    match designOutcome with
    | Except.error _ => [RemoteCall.designGeneration fileContent]
    | Except.ok _ => [RemoteCall.designGeneration fileContent, RemoteCall.diagramRender]

/-- Demo load balancer component. -/
def lb1 : SystemComponent :=
  { name := "lb1", type := "load_balancer", description := "demo load balancer" }

/-- Demo service component. -/
def svc1 : SystemComponent :=
  { name := "svc1", type := "service", description := "demo service" }

/-- Demo database component. -/
def db1 : SystemComponent :=
  { name := "db1", type := "database", description := "demo database" }

/-- The edge rule 1 produces between lb1 and svc1. -/
def lbEdge : Connection :=
  { from_component := "lb1", to_component := "svc1", connection_type := "http",
    description := "Load balancer distributes traffic to service" }

/-- A service component named a. -/
def aSvc : SystemComponent :=
  { name := "a", type := "service", description := "service occurrence" }

/-- A database component also named a. -/
def aDb : SystemComponent :=
  { name := "a", type := "database", description := "database occurrence" }

/-- First demo service for the rule 6 cap. -/
def svcA : SystemComponent :=
  { name := "svcA", type := "service", description := "first service" }

/-- Second demo service for the rule 6 cap. -/
def svcB : SystemComponent :=
  { name := "svcB", type := "service", description := "second service" }

/-- First demo storage for the rule 6 cap. -/
def stoA : SystemComponent :=
  { name := "stoA", type := "storage", description := "first storage" }

/-- Second demo storage for the rule 6 cap. -/
def stoB : SystemComponent :=
  { name := "stoB", type := "storage", description := "second storage" }

/-- Two services and two storages, the rule 6 cap scenario. -/
def rule6Demo : List SystemComponent := [svcA, stoA, svcB, stoB]

/-- A running EC2 instance as returned inside describe-instances. -/
def runningInstanceJson : JsonValue :=
  JsonValue.obj [("InstanceId", JsonValue.str "i-1"),
                 ("InstanceType", JsonValue.str "t3.micro"),
                 ("State", JsonValue.obj [("Name", JsonValue.str "running")])]

/-- A stopped EC2 instance as returned inside describe-instances. -/
def stoppedInstanceJson : JsonValue :=
  JsonValue.obj [("InstanceId", JsonValue.str "i-2"),
                 ("InstanceType", JsonValue.str "t3.micro"),
                 ("State", JsonValue.obj [("Name", JsonValue.str "stopped")])]

/-- A describe-instances response holding one running and one stopped
instance in a single reservation. -/
def ec2ResponseDemo : Option JsonValue :=
  some (JsonValue.obj [("Reservations", JsonValue.arr
    [JsonValue.obj [("Instances", JsonValue.arr
      [runningInstanceJson, stoppedInstanceJson])]])])

/-- A valid design payload, carrying one extra field that validation
ignores. -/
def designPayloadDemo : JsonValue :=
  JsonValue.obj [("title", JsonValue.str "Shop"),
                 ("description", JsonValue.str "demo design"),
                 ("components", JsonValue.arr
                   [JsonValue.obj [("name", JsonValue.str "api"),
                                   ("type", JsonValue.str "service"),
                                   ("description", JsonValue.str "backend"),
                                   ("extra", JsonValue.num 3)]]),
                 ("connections", JsonValue.arr []),
                 ("notes", JsonValue.arr [JsonValue.str "n1"])]

/-- The design that payload validates to. -/
def designDemo : SystemDesign :=
  { title := "Shop", description := "demo design",
    components := [{ name := "api", type := "service", description := "backend" }],
    connections := [], notes := ["n1"] }

/-- A failed design generation outcome, for exercising the workflow
models. -/
def errOutcomeDemo : Except DesignGenerationError SystemDesign :=
  Except.error DesignGenerationError.jsonDecodeError

/-- Edges of a cross product loop come from one source and one target
element. -/
theorem mem_crossEdges {src tgt : List SystemComponent} {t d : String}
    {conn : Connection} (h : conn ∈ crossEdges src tgt t d) :
    ∃ a ∈ src, ∃ b ∈ tgt,
      conn = { from_component := a.name, to_component := b.name,
               connection_type := t, description := d } := by
  simp only [crossEdges, List.mem_flatMap, List.mem_map] at h
  obtain ⟨a, ha, b, hb, hc⟩ := h
  exact ⟨a, ha, b, hb, hc.symm⟩

/-- Endpoint names of a cross product over two sublists of the component
list name components of that list. -/
theorem endpoints_of_crossEdges {components src tgt : List SystemComponent}
    {t d : String} {conn : Connection}
    (hsrc : ∀ a ∈ src, a ∈ components) (htgt : ∀ b ∈ tgt, b ∈ components)
    (h : conn ∈ crossEdges src tgt t d) :
    (∃ c ∈ components, c.name = conn.from_component) ∧
      (∃ c ∈ components, c.name = conn.to_component) := by
  obtain ⟨a, ha, b, hb, hc⟩ := mem_crossEdges h
  subst hc
  exact ⟨⟨a, hsrc a ha, rfl⟩, ⟨b, htgt b hb, rfl⟩⟩

/-- C2. On the list [lb1 load balancer, svc1 service, db1 database],
infer_connections returns exactly the rule 1 edge lb1 to svc1 of type http
followed by the rule 2 edge svc1 to db1 of type sync, and nothing else. -/
theorem c2_exact_edges :
    infer_connections [lb1, svc1, db1] =
      [lbEdge,
       { from_component := "svc1", to_component := "db1",
         connection_type := "sync",
         description := "Service reads/writes data to database" }] := by
  decide

/-- C3 counterexample. The claim that duplicate names are shadowed (so that
inference on a duplicate-name list equals inference on the list with the
earlier duplicates removed) fails on the list [aSvc, aDb], two components
both named a: removing the earlier duplicate leaves [aDb], and the two
connection lists differ. -/
theorem c3_counterexample :
    infer_connections [aSvc, aDb] ≠ infer_connections [aDb] := by
  decide

/-- C3 amended. The name-keyed dict of infer_connections would indeed let a
later duplicate shadow an earlier one, but it is never consulted: the six
rules iterate the full component list, so both same-named components
participate — the earlier service occurrence still sources a rule 2 edge to
the later database occurrence, an edge absent once the earlier duplicate is
removed. -/
theorem c3_duplicates_not_shadowed :
    component_map [aSvc, aDb] "a" = some aDb ∧
      infer_connections [aSvc, aDb] =
        [{ from_component := "a", to_component := "a",
           connection_type := "sync",
           description := "Service reads/writes data to database" }] ∧
      infer_connections [aDb] = [] := by
  refine ⟨by decide, by decide, by decide⟩

/-- C1. Whenever the component list has a first service/compute/function
typed component s (head of the order-preserving type filter) and a first
storage typed component st, rule 6 produces exactly the single sync edge
from s to st, and infer_connections as a whole carries exactly that one
rule 6 edge after the edges of rules 1 to 5. -/
theorem c1_rule6_cap (components : List SystemComponent)
    (s st : SystemComponent)
    (hs : (service_components components).head? = some s)
    (hst : (components.filter fun c => c.type == "storage").head? = some st) :
    pattern6 components =
      [{ from_component := s.name, to_component := st.name,
         connection_type := "sync",
         description := "Service stores/retrieves files from storage" }] ∧
    infer_connections components =
      pattern1 components ++ pattern2 components ++ pattern3 components ++
        pattern4 components ++ pattern5 components ++
        [{ from_component := s.name, to_component := st.name,
           connection_type := "sync",
           description := "Service stores/retrieves files from storage" }] := by
  have h6 : pattern6 components =
      [{ from_component := s.name, to_component := st.name,
         connection_type := "sync",
         description := "Service stores/retrieves files from storage" }] := by
    unfold pattern6
    cases hsc : service_components components with
    | nil => rw [hsc] at hs; simp at hs
    | cons a ta =>
      rw [hsc] at hs
      cases hstc : components.filter fun c => c.type == "storage" with
      | nil => rw [hstc] at hst; simp at hst
      | cons b tb =>
        rw [hstc] at hst
        simp only [List.head?_cons, Option.some.injEq] at hs hst
        subst hs; subst hst
        simp [crossEdges]
  refine ⟨h6, ?_⟩
  unfold infer_connections
  rw [h6]

/-- C1 witness. Two services and two storages: the rule 6 hypotheses hold
with first service svcA and first storage stoA, and exactly one capped
edge svcA to stoA results, not four. -/
theorem c1_witness :
    (service_components rule6Demo).head? = some svcA ∧
    (rule6Demo.filter fun c => c.type == "storage").head? = some stoA ∧
    pattern6 rule6Demo =
      [{ from_component := "svcA", to_component := "stoA",
         connection_type := "sync",
         description := "Service stores/retrieves files from storage" }] :=
  ⟨rfl, rfl, (c1_rule6_cap rule6Demo svcA stoA rfl rfl).1⟩

/-- C9. Every connection infer_connections returns has both endpoints equal
to the name of some component of the input list: each of the six rules
draws its sources and targets from type filters (rule 6 from capped
prefixes of them) of that very list, so no dangling endpoint reference can
be emitted. -/
theorem c9_endpoints_exist (components : List SystemComponent)
    (conn : Connection) (h : conn ∈ infer_connections components) :
    (∃ c ∈ components, c.name = conn.from_component) ∧
      (∃ c ∈ components, c.name = conn.to_component) := by
  simp only [infer_connections, pattern1, pattern2, pattern3, pattern4,
    pattern5, pattern6, service_components, List.mem_append] at h
  rcases h with ((((h | h) | h) | h) | h) | h
  · exact endpoints_of_crossEdges
      (fun a ha => List.mem_of_mem_filter ha)
      (fun b hb => List.mem_of_mem_filter hb) h
  · exact endpoints_of_crossEdges
      (fun a ha => List.mem_of_mem_filter ha)
      (fun b hb => List.mem_of_mem_filter hb) h
  · exact endpoints_of_crossEdges
      (fun a ha => List.mem_of_mem_filter ha)
      (fun b hb => List.mem_of_mem_filter hb) h
  · exact endpoints_of_crossEdges
      (fun a ha => List.mem_of_mem_filter ha)
      (fun b hb => List.mem_of_mem_filter hb) h
  · exact endpoints_of_crossEdges
      (fun a ha => List.mem_of_mem_filter ha)
      (fun b hb => List.mem_of_mem_filter hb) h
  · exact endpoints_of_crossEdges
      (fun a ha => List.mem_of_mem_filter (List.mem_of_mem_take ha))
      (fun b hb => List.mem_of_mem_filter (List.mem_of_mem_take hb)) h

/-- C9 witness. The rule 1 edge on the demo list is among the inferred
connections and both of its endpoints name components of the list. -/
theorem c9_witness :
    lbEdge ∈ infer_connections [lb1, svc1, db1] ∧
      ((∃ c ∈ [lb1, svc1, db1], c.name = lbEdge.from_component) ∧
        (∃ c ∈ [lb1, svc1, db1], c.name = lbEdge.to_component)) :=
  ⟨by decide, c9_endpoints_exist [lb1, svc1, db1] lbEdge (by decide)⟩

/-- C4. Any discovery call whose subprocess raised (including the 30 second
timeout), exited non-zero, or produced stdout the JSON reader cannot
decode, makes run_aws_command return none, and the rds_instances list of
discovered_resources is then left exactly as it was; both functions are
total, so no exception escapes the adapter. -/
theorem c4_failure_yields_empty (jsonLoads : String → Option JsonValue)
    (outcome : CmdOutcome) (rds : List RdsRecord)
    (h : outcome = CmdOutcome.raised ∨
      (∃ rc out, outcome = CmdOutcome.completed rc out ∧ rc ≠ 0) ∨
      (∃ rc out, outcome = CmdOutcome.completed rc out ∧ jsonLoads out = none)) :
    run_aws_command jsonLoads outcome = none ∧
      discover_rds_instances (run_aws_command jsonLoads outcome) rds = rds := by
  have hrun : run_aws_command jsonLoads outcome = none := by
    rcases h with rfl | ⟨rc, out, rfl, hrc⟩ | ⟨rc, out, rfl, hjl⟩
    · rfl
    · simp [run_aws_command, hrc]
    · simp [run_aws_command, hjl]
  exact ⟨hrun, by rw [hrun]; rfl⟩

/-- C4 witness. A completed call with exit code 0 whose stdout does not
decode as JSON yields none and leaves a one-record rds_instances list
untouched. -/
theorem c4_witness :
    run_aws_command (fun _ => none) (CmdOutcome.completed 0 "not json") = none ∧
      discover_rds_instances
        (run_aws_command (fun _ => none) (CmdOutcome.completed 0 "not json"))
        [mkRdsRecord JsonValue.null] = [mkRdsRecord JsonValue.null] :=
  c4_failure_yields_empty (fun _ => none) (CmdOutcome.completed 0 "not json")
    [mkRdsRecord JsonValue.null]
    (Or.inr (Or.inr ⟨0, "not json", rfl, rfl⟩))

/-- C10. Any record of the ec2_instances list after compute discovery was
either already accumulated or stems from an instance of the walked
response whose state name is exactly the string running; instances in any
other state are skipped and contribute nothing. -/
theorem c10_only_running (response : Option JsonValue)
    (acc : List Ec2Record) (r : Ec2Record)
    (h : r ∈ discover_ec2_instances response acc) :
    r ∈ acc ∨ ∃ inst ∈ responseInstances response,
      jsonEqStr (instanceStateName inst) "running" = true ∧
        r = mkEc2Record inst := by
  unfold discover_ec2_instances at h
  rcases List.mem_append.mp h with h | h
  · exact Or.inl h
  · right
    simp only [List.mem_filterMap] at h
    obtain ⟨inst, hmem, hif⟩ := h
    by_cases hs : jsonEqStr (instanceStateName inst) "running"
    · rw [if_pos hs] at hif
      exact ⟨inst, hmem, hs, (Option.some.inj hif).symm⟩
    · rw [if_neg hs] at hif
      exact absurd hif (by simp)

/-- C10 witness. On a response holding one running and one stopped
instance, the single discovered record stems from the running instance,
and the stopped one contributes nothing. -/
theorem c10_witness :
    (mkEc2Record runningInstanceJson ∈
        discover_ec2_instances ec2ResponseDemo []) ∧
      (mkEc2Record runningInstanceJson ∈ [] ∨
        ∃ inst ∈ responseInstances ec2ResponseDemo,
          jsonEqStr (instanceStateName inst) "running" = true ∧
            mkEc2Record runningInstanceJson = mkEc2Record inst) :=
  have hmem : mkEc2Record runningInstanceJson ∈
      discover_ec2_instances ec2ResponseDemo [] := by
    have hd : discover_ec2_instances ec2ResponseDemo [] =
        [mkEc2Record runningInstanceJson] := rfl
    rw [hd]
    exact List.mem_singleton.mpr rfl
  ⟨hmem, c10_only_running ec2ResponseDemo [] (mkEc2Record runningInstanceJson) hmem⟩

/-- Round trip of a single component through serialization. -/
theorem parseComponent_serialize (c : SystemComponent) :
    parseComponent (serializeComponent c) = some c := rfl

/-- Round trip of a single connection through serialization. -/
theorem parseConnection_serialize (c : Connection) :
    parseConnection (serializeConnection c) = some c := rfl

/-- Element-wise validation inverts element-wise serialization. -/
theorem parseEach_map {α : Type} (f : JsonValue → Option α) (g : α → JsonValue)
    (hfg : ∀ a, f (g a) = some a) (l : List α) :
    parseEach f (l.map g) = some l := by
  induction l with
  | nil => rfl
  | cons a t ih => simp [parseEach, hfg, ih]

/-- Serializing any SystemDesign and validating the result recovers it
exactly. -/
theorem parseSystemDesign_serialize (d : SystemDesign) :
    parseSystemDesign (serializeSystemDesign d) = some d := by
  cases d with
  | mk title description comps conns ns =>
    simp [parseSystemDesign, serializeSystemDesign, dictGet, asStr,
      parseEach_map parseComponent serializeComponent parseComponent_serialize,
      parseEach_map parseConnection serializeConnection parseConnection_serialize,
      parseEach_map asStr JsonValue.str (fun s => rfl)]

/-- C8. Any JSON payload that validates into a SystemDesign re-validates to
that same design after being serialized back to JSON: the schema model is
round-trip stable under parse, serialize, parse. -/
theorem c8_roundtrip (j : JsonValue) (d : SystemDesign)
    (_hparse : parseSystemDesign j = some d) :
    parseSystemDesign (serializeSystemDesign d) = some d :=
  parseSystemDesign_serialize d

/-- C8 witness. The demo payload (which carries an extra ignored field)
validates to the demo design, and serializing that design re-validates to
it. -/
theorem c8_witness :
    parseSystemDesign designPayloadDemo = some designDemo ∧
      parseSystemDesign (serializeSystemDesign designDemo) = some designDemo :=
  ⟨rfl, c8_roundtrip designPayloadDemo designDemo rfl⟩

/-- C5. Whenever the remote response content is malformed JSON (the reader
yields none) or decodes to a payload the schema model rejects, both
recommend_design and refine_design fail with a DesignGenerationError and
return no design at all: the caller receives the error, never a partially
populated SystemDesign (a successful result can only arise from a payload
the full validation accepted). -/
theorem c5_no_partial_design (jsonLoads : String → Option JsonValue)
    (content : String) (cur : SystemDesign) (feedback : String)
    (h : jsonLoads content = none ∨
      ∃ j, jsonLoads content = some j ∧ parseSystemDesign j = none) :
    (∃ e, recommend_design jsonLoads content = Except.error e) ∧
      (∃ e, refine_design jsonLoads cur feedback content = Except.error e) ∧
      (∀ d, recommend_design jsonLoads content ≠ Except.ok d) ∧
      (∀ d, refine_design jsonLoads cur feedback content ≠ Except.ok d) := by
  rcases h with hn | ⟨j, hj, hp⟩
  · refine ⟨⟨DesignGenerationError.jsonDecodeError, ?_⟩,
      ⟨DesignGenerationError.jsonDecodeError, ?_⟩, ?_, ?_⟩ <;>
      simp [recommend_design, refine_design, hn]
  · refine ⟨⟨DesignGenerationError.validationError, ?_⟩,
      ⟨DesignGenerationError.validationError, ?_⟩, ?_, ?_⟩ <;>
      simp [recommend_design, refine_design, hj, hp]

/-- C5 witness. With a reader that cannot decode the content, both calls
fail with an error and neither produces any design. -/
theorem c5_witness :
    (∃ e, recommend_design (fun _ => none) "not json" = Except.error e) ∧
      (∃ e, refine_design (fun _ => none) designDemo "feedback" "not json" =
        Except.error e) ∧
      (∀ d, recommend_design (fun _ => none) "not json" ≠ Except.ok d) ∧
      (∀ d, refine_design (fun _ => none) designDemo "feedback" "not json" ≠
        Except.ok d) :=
  c5_no_partial_design (fun _ => none) "not json" designDemo "feedback"
    (Or.inl rfl)

/-- C6 counterexample. The claim that an empty description terminates the
workflow before any remote call in both entry paths fails on the batch
path: batch mode with an existing but empty input file invokes design
generation with the empty description (the design call appears in the call
list whatever its outcome). -/
theorem c6_counterexample :
    RemoteCall.designGeneration "" ∈ batch_mode_calls true "" errOutcomeDemo := by
  decide

/-- C6 amended. Only the interactive describe path rejects an empty or
whitespace-only description before any remote call; the batch path performs
no emptiness check and always invokes design generation with the file
content, empty or not. -/
theorem c6_empty_description_policy :
    (∀ (description : String)
        (o : Except DesignGenerationError SystemDesign),
        pyStrip description = "" → interactive_describe_calls description o = []) ∧
      (∀ (content : String) (o : Except DesignGenerationError SystemDesign),
        RemoteCall.designGeneration content ∈ batch_mode_calls true content o) := by
  constructor
  · intro description o h
    simp [interactive_describe_calls, h]
  · intro content o
    cases o <;> simp [batch_mode_calls]

/-- C6 witness. A whitespace-only interactive description produces no
remote call at all, while batch mode on empty file content still makes the
design generation call. -/
theorem c6_witness :
    interactive_describe_calls "   " errOutcomeDemo = [] ∧
      RemoteCall.designGeneration "" ∈ batch_mode_calls true "" errOutcomeDemo :=
  ⟨c6_empty_description_policy.1 "   " errOutcomeDemo (by decide),
   c6_empty_description_policy.2 "" errOutcomeDemo⟩

/-- C7 counterexample. The claim that the secondary provider is attempted
with the same style instructions fails at style detailed: when the primary
raises, the two calls made do not both carry the primary instruction text —
the secondary table abbreviates it (dropping the box-drawing sentence), so
the instruction strings differ. -/
theorem c7_counterexample :
    ((create_with_openai_fallback (Except.error "boom") (Except.ok "ART")
        "design json" "detailed").1.map fun c => c.styleInstruction) ≠
      [anthropic_style_instructions "detailed",
       anthropic_style_instructions "detailed"] := by
  decide

/-- C7 amended. When the primary provider raises, exactly one secondary
call is attempted, carrying the secondary instruction table's entry for
the same style selector and the same serialized design, and the secondary
outcome is returned as is: its text unmodified on success, failure
otherwise; a successful primary makes no secondary call. -/
theorem c7_fallback_policy (e : String) (secondaryOutcome : ProviderOutcome)
    (designJson style : String) :
    create_with_openai_fallback (Except.error e) secondaryOutcome
        designJson style =
      ([{ provider := "anthropic",
          styleInstruction := anthropic_style_instructions style,
          designJson := designJson },
        { provider := "openai",
          styleInstruction := openai_style_instructions style,
          designJson := designJson }], secondaryOutcome) ∧
      ∀ t : String,
        create_with_openai_fallback (Except.ok t) secondaryOutcome
            designJson style =
          ([{ provider := "anthropic",
              styleInstruction := anthropic_style_instructions style,
              designJson := designJson }], Except.ok t) :=
  ⟨rfl, fun _ => rfl⟩
